import Mathlib

set_option maxRecDepth 8000

namespace MmdUtil

/-- Fatal decoding errors of the loaders. `truncated` models a short read on the
underlying byte source (TruncatedInputError); `invalidIndexType` models the
`std::logic_error` thrown by `read_index` on a width selector outside {1,2,4};
`invalidWeightType` models the `std::runtime_error` thrown on an unknown vertex
weight-type discriminant; `invalidUtf16` models `utf8::invalid_utf16` thrown by
the UTF-16 to UTF-8 transcoder on unpaired surrogates; `badAlloc` models the
exception raised when a negative count is converted to a huge unsigned size
(`std::length_error` / `std::bad_array_new_length`). -/
inductive Err
  | truncated
  | invalidIndexType
  | invalidWeightType
  | invalidUtf16
  | badAlloc
deriving DecidableEq, Repr

/-- Result of a stateful read step: a value together with the remaining bytes,
or a fatal error. A byte stream is a list of naturals; decoders normalize each
byte modulo 256 when they interpret it. -/
abbrev RRes (α : Type) := Except Err (α × List Nat)

instance {ε α : Type} [DecidableEq ε] [DecidableEq α] : DecidableEq (Except ε α) := fun a b =>
  match a, b with
  | .ok x, .ok y =>
    if h : x = y then .isTrue (by rw [h]) else .isFalse (fun hh => h (Except.ok.inj hh))
  | .error x, .error y =>
    if h : x = y then .isTrue (by rw [h]) else .isFalse (fun hh => h (Except.error.inj hh))
  | .ok _, .error _ => .isFalse (fun hh => Except.noConfusion hh)
  | .error _, .ok _ => .isFalse (fun hh => Except.noConfusion hh)

/-- Sequencing of read steps: propagate a fatal error, otherwise continue on the
remaining stream. This models C++ exception propagation through the loaders. -/
def rbind {α β : Type} (m : RRes α) (f : α → List Nat → RRes β) : RRes β :=
  match m with
  | .ok (a, s) => f a s
  | .error e => .error e

/-- Takes exactly `n` leading bytes of a stream, or nothing if fewer remain. -/
def takeBytes : Nat → List Nat → Option (List Nat × List Nat)
  | 0, s => some ([], s)
  | _ + 1, [] => none
  | n + 1, b :: s =>
    match takeBytes n s with
    | some (xs, r) => some (b :: xs, r)
    | none => none

/-- Primitive reader `readBytes(buffer, n)`: consumes exactly `n` bytes or fails
with a truncation error (the byte source reports short reads as failures). -/
def readBytes (n : Nat) (s : List Nat) : RRes (List Nat) :=
  match takeBytes n s with
  | some (xs, r) => .ok (xs, r)
  | none => .error .truncated

/-- Little-endian value of a byte list (each entry normalized modulo 256). -/
def leNat : List Nat → Nat
  | [] => 0
  | b :: r => b % 256 + 256 * leNat r

/-- Reinterpretation of a `w`-byte unsigned value as a signed two's-complement
integer of the same width (sign extension to a mathematical integer). -/
def toSigned (w : Nat) (v : Nat) : Int :=
  if v % 2 ^ (8 * w) < 2 ^ (8 * w - 1) then ((v % 2 ^ (8 * w) : Nat) : Int)
  else ((v % 2 ^ (8 * w) : Nat) : Int) - 2 ^ (8 * w)

/-- Reads a `w`-byte little-endian unsigned integer. -/
def readUInt (w : Nat) (s : List Nat) : RRes Nat :=
  rbind (readBytes w s) fun bs s => .ok (leNat bs, s)

/-- Reads a `w`-byte little-endian signed (two's-complement) integer. -/
def readSInt (w : Nat) (s : List Nat) : RRes Int :=
  rbind (readBytes w s) fun bs s => .ok (toSigned w (leNat bs), s)

/-- Reads a `w`-byte little-endian unsigned integer, returned as an `Int`
(zero extension into the 32-bit destination of the C++ template). -/
def readUIntZ (w : Nat) (s : List Nat) : RRes Int :=
  rbind (readBytes w s) fun bs s => .ok ((leNat bs : Int), s)

/-- Signed-flavor variable-width index reader: `read_index` instantiated at
`<int8_t, int16_t, int32_t>` (util_mmd.cpp line 108). The width selector is the
raw header byte; values outside {1,2,4} reach the `std::logic_error` throw. -/
def read_index (t : Nat) (s : List Nat) : RRes Int :=
  if t = 1 then readSInt 1 s
  else if t = 2 then readSInt 2 s
  else if t = 4 then readSInt 4 s
  else .error .invalidIndexType

/-- Vertex-flavor variable-width index reader: `read_index` instantiated at
`<uint8_t, uint16_t, int32_t>` (util_mmd.cpp line 109): widths 1 and 2 are
zero-extended, width 4 is read signed. -/
def read_vertex_index (t : Nat) (s : List Nat) : RRes Int :=
  if t = 1 then readUIntZ 1 s
  else if t = 2 then readUIntZ 2 s
  else if t = 4 then readSInt 4 s
  else .error .invalidIndexType

/-- Reads `k` records with the given element reader (a counted section loop). -/
def readN {α : Type} (k : Nat) (r : List Nat → RRes α) (s : List Nat) : RRes (List α) :=
  match k with
  | 0 => .ok ([], s)
  | k + 1 =>
    rbind (r s) fun a s =>
    rbind (readN k r s) fun as s =>
    .ok (a :: as, s)

/-- Groups a byte run into little-endian 16-bit code units, exactly as the
UTF-16 branch of `read_text` does: the buffer holds `ceil(len/2)` units but only
`len` bytes are read into it, so for an odd byte count the final unit keeps a
zero high byte (the vector is value-initialized). -/
def toUnits : List Nat → List Nat
  | [] => []
  | [b] => [b % 256]
  | b0 :: b1 :: rest => (b0 % 256 + 256 * (b1 % 256)) :: toUnits rest

/-- UTF-8 encoding of a single code point (standard 1- to 4-byte form). -/
def encodeCp (c : Nat) : List Nat :=
  if c < 0x80 then [c]
  else if c < 0x800 then [0xC0 + c / 64, 0x80 + c % 64]
  else if c < 0x10000 then [0xE0 + c / 4096, 0x80 + c / 64 % 64, 0x80 + c % 64]
  else [0xF0 + c / 262144, 0x80 + c / 4096 % 64, 0x80 + c / 64 % 64, 0x80 + c % 64]

/-- Modelled from the spec: the external UTF-16 to UTF-8 transcoder
`utf8::utf16to8` (an out-of-scope collaborator, spec section 4.2). It converts
16-bit code units to UTF-8 bytes and fails on an unpaired surrogate instead of
substituting replacement characters. -/
def utf16to8 : List Nat → Except Err (List Nat)
  | [] => .ok []
  | u :: rest =>
    if u < 0xD800 ∨ 0xE000 ≤ u then
      match utf16to8 rest with
      | .ok out => .ok (encodeCp u ++ out)
      | .error e => .error e
    else if u < 0xDC00 then
      match rest with
      | [] => .error .invalidUtf16
      | v :: rest' =>
        if 0xDC00 ≤ v ∧ v < 0xE000 then
          match utf16to8 rest' with
          | .ok out => .ok (encodeCp (0x10000 + (u - 0xD800) * 1024 + (v - 0xDC00)) ++ out)
          | .error e => .error e
        else .error .invalidUtf16
    else .error .invalidUtf16

/-- Text decoder `read_text` (util_mmd.cpp lines 73-94). Reads a 4-byte signed
length prefix, then branches on the raw encoding byte: 1 (UTF8) returns the
bytes verbatim; 0 (UTF16) reads `len` bytes, reinterprets them as
`ceil(len/2)` little-endian code units (odd length: final unit zero-padded, no
extra byte is read) and transcodes; any other encoding byte falls through both
switch cases and returns the empty string having consumed only the prefix.
A negative length is fatal in both decoding branches: the UTF8 branch
constructs a vector of a huge unsigned size (allocation failure); in the UTF16
branch, an even negative length makes the unit-buffer size `len/2 + 0` itself
huge (allocation failure), while an odd negative length gives a small buffer
and the `f.Read(data, len)` call requests a huge byte count (truncation
failure) — C++ `/` and `%` truncate toward zero, matched by `Int.tdiv` and
`Int.tmod`. Strings are modelled as their byte contents. -/
def read_text (enc : Nat) (s : List Nat) : RRes (List Nat) :=
  rbind (readSInt 4 s) fun len s =>
  if enc = 1 then
    if len < 0 then .error .badAlloc
    else rbind (readBytes len.toNat s) fun data s => .ok (data, s)
  else if enc = 0 then
    if len < 0 then
      (if Int.tmod len 2 = 0 then .error .badAlloc else .error .truncated)
    else
      rbind (readBytes len.toNat s) fun data s =>
      match utf16to8 (toUnits data) with
      | .ok out => .ok (out, s)
      | .error e => .error e
  else .ok ([], s)

/-- Symbolic 32-bit float value: the loaders move float bit patterns around and
perform one arithmetic step (`1.f - w` for BDEF2/SDEF secondary weights), which
is kept symbolic because no claim inspects float arithmetic. `bits` holds the
raw little-endian bytes of a stored float. -/
inductive FloatVal
  | zero
  | one
  | bits (b : List Nat)
  | oneMinus (w : FloatVal)
deriving DecidableEq, Repr

/-- Vertex record (`VertexData`, util_mmd.hpp lines 50-57): geometry fields are
kept as their raw bytes, bone ids default to -1 and weights to 0. -/
structure VertexData where
  position : List Nat
  normal : List Nat
  uv : List Nat
  boneIds : List Int := [-1, -1, -1, -1]
  boneWeights : List FloatVal := [.zero, .zero, .zero, .zero]
deriving DecidableEq, Repr

/-- Material record (`MaterialData`, util_mmd.hpp lines 59-76); color blocks are
raw bytes, indices are decoded 32-bit integers. -/
structure MaterialData where
  name : List Nat
  diffuseColor : List Nat
  specularColor : List Nat
  specularity : List Nat
  ambientColor : List Nat
  drawingMode : Nat
  edgeColor : List Nat
  edgeSize : List Nat
  textureIndex : Int
  sphereIndex : Int
  sphereMode : Nat
  toonFlag : Nat
  toonIndex : Int
  memo : List Nat
  faceCount : Int
deriving DecidableEq, Repr

/-- Bone record (util_mmd.cpp lines 228-279): both names are retained, the
parent index and layer are decoded integers, `flags` is the raw 16-bit flag
word. `localAxes` stores the two raw direction vectors read when the
LocalCoordinate flag is set; the derived orthonormal basis (`bone.rotation`) is
pure floating-point arithmetic on exactly these 24 bytes and is not evaluated
here, since no claim inspects it. -/
structure Bone where
  nameJp : List Nat
  name : List Nat
  position : List Nat
  parentBoneIdx : Int
  layer : Int
  flags : Nat
  localAxes : Option (List Nat × List Nat) := none
deriving DecidableEq, Repr

/-- One decoded morph element: the leading variable-width index (decoded to a
32-bit integer) followed by the variant-specific trailing bytes, which are read
raw into the rest of the element struct. -/
structure MorphElem where
  index : Int
  payload : List Nat
deriving DecidableEq, Repr

/-- Morph record (util_mmd.cpp lines 283-336): `mtype` is the raw discriminant
byte; `elems` is `none` exactly when the type-erased `morphs` buffer stays
`nullptr` (which happens for a discriminant outside the known variant set,
because the dispatch switch has no default case). -/
structure Morph where
  nameLocal : List Nat
  nameGlobal : List Nat
  panelType : Int
  mtype : Nat
  count : Int
  elems : Option (List MorphElem)
deriving DecidableEq, Repr

/-- Model record (`ModelData`, util_mmd.hpp lines 88-98, plus the `morphs` list
the module-interface version of the struct carries, util_mmd.cpp line 336).
`version` keeps the raw 4 bytes of the version float; `faces` entries are the
16-bit values actually stored in the `std::vector<uint16_t>`. -/
structure ModelData where
  version : List Nat
  characterName : List Nat
  comment : List Nat
  vertices : List VertexData
  faces : List Nat
  textures : List (List Nat)
  materials : List MaterialData
  bones : List Bone
  morphs : List Morph
deriving DecidableEq, Repr

/-- The six 1-byte index-width selectors of the PMX header, kept raw (they are
validated only when an index is actually read with them). -/
structure IndexWidths where
  vertexW : Nat
  textureW : Nat
  materialW : Nat
  boneW : Nat
  morphW : Nat
  rigidBodyW : Nat
deriving DecidableEq, Repr

/-- Truncation of a decoded 32-bit vertex index to the 16-bit element type of
`ModelData::faces` (the C++ `int32_t` to `uint16_t` conversion: value modulo
2^16). -/
def narrow16 (i : Int) : Nat := (i % 65536).toNat

/-- Vertex section element (util_mmd.cpp lines 137-187): fixed geometry reads,
`auxUvCount` discarded floats, then the weight-type discriminant dispatch; a
weight byte outside {0,1,2,3,4} reaches the `default: throw` branch. The
appendix-UV count is the signed header char: a negative value makes the C++
`std::vector<float>` constructor receive a huge unsigned size. -/
def readVertex (auxUvCount : Int) (boneW : Nat) (s : List Nat) : RRes VertexData :=
  rbind (readBytes 12 s) fun pos s =>
  rbind (readBytes 12 s) fun nor s =>
  rbind (readBytes 8 s) fun uv s =>
  (if auxUvCount < 0 then .error .badAlloc
   else
    rbind (readBytes (auxUvCount.toNat * 4) s) fun _ s =>
    rbind (readUInt 1 s) fun weightType s =>
    rbind
      (if weightType = 0 then
        rbind (read_index boneW s) fun b0 s =>
        .ok (([b0, -1, -1, -1], [FloatVal.one, .zero, .zero, .zero]), s)
      else if weightType = 1 then
        rbind (read_index boneW s) fun b0 s =>
        rbind (read_index boneW s) fun b1 s =>
        rbind (readBytes 4 s) fun w0 s =>
        .ok (([b0, b1, -1, -1], [FloatVal.bits w0, .oneMinus (.bits w0), .zero, .zero]), s)
      else if weightType = 2 ∨ weightType = 4 then
        rbind (read_index boneW s) fun b0 s =>
        rbind (read_index boneW s) fun b1 s =>
        rbind (read_index boneW s) fun b2 s =>
        rbind (read_index boneW s) fun b3 s =>
        rbind (readBytes 4 s) fun w0 s =>
        rbind (readBytes 4 s) fun w1 s =>
        rbind (readBytes 4 s) fun w2 s =>
        rbind (readBytes 4 s) fun w3 s =>
        .ok (([b0, b1, b2, b3], [FloatVal.bits w0, .bits w1, .bits w2, .bits w3]), s)
      else if weightType = 3 then
        rbind (read_index boneW s) fun b0 s =>
        rbind (read_index boneW s) fun b1 s =>
        rbind (readBytes 4 s) fun w0 s =>
        rbind (readBytes 36 s) fun _ s =>
        .ok (([b0, b1, -1, -1], [FloatVal.bits w0, .oneMinus (.bits w0), .zero, .zero]), s)
      else .error .invalidWeightType)
      fun bw s =>
    rbind (readBytes 4 s) fun _ s =>
    .ok ({ position := pos, normal := nor, uv := uv, boneIds := bw.1, boneWeights := bw.2 }, s))

/-- Face section element (util_mmd.cpp lines 191-194): a vertex-flavor index
read, stored into the 16-bit face list. -/
def readFaceEntry (vertexW : Nat) (s : List Nat) : RRes Nat :=
  rbind (read_vertex_index vertexW s) fun i s => .ok (narrow16 i, s)

/-- Material section element (util_mmd.cpp lines 205-224). -/
def readMaterial (enc : Nat) (texW : Nat) (s : List Nat) : RRes MaterialData :=
  rbind (read_text enc s) fun _ s =>
  rbind (read_text enc s) fun nm s =>
  rbind (readBytes 16 s) fun dif s =>
  rbind (readBytes 12 s) fun spc s =>
  rbind (readBytes 4 s) fun spcy s =>
  rbind (readBytes 12 s) fun amb s =>
  rbind (readUInt 1 s) fun draw s =>
  rbind (readBytes 16 s) fun edgec s =>
  rbind (readBytes 4 s) fun edges s =>
  rbind (read_index texW s) fun texIdx s =>
  rbind (read_index texW s) fun sphIdx s =>
  rbind (readUInt 1 s) fun sphMode s =>
  rbind (readUInt 1 s) fun toonFlag s =>
  rbind (if toonFlag = 0 then read_index texW s else readSInt 1 s) fun toonIdx s =>
  rbind (read_text enc s) fun memo s =>
  rbind (readSInt 4 s) fun faceCount s =>
  .ok ({ name := nm, diffuseColor := dif, specularColor := spc, specularity := spcy,
         ambientColor := amb, drawingMode := draw, edgeColor := edgec, edgeSize := edges,
         textureIndex := texIdx, sphereIndex := sphIdx, sphereMode := sphMode,
         toonFlag := toonFlag, toonIndex := toonIdx, memo := memo, faceCount := faceCount }, s)

/-- Bone flag bits (`BoneFlag`, util_mmd.hpp lines 32-47). -/
def boneFlagIndexedTail : Nat := 1
def boneFlagIK : Nat := 32
def boneFlagInheritEither : Nat := 768
def boneFlagFixedAxis : Nat := 1024
def boneFlagLocalCoordinate : Nat := 2048
def boneFlagExtParentDeform : Nat := 8192

/-- One IK link entry (util_mmd.cpp lines 270-277). -/
def readIkLink (boneW : Nat) (s : List Nat) : RRes Unit :=
  rbind (read_index boneW s) fun _ s =>
  rbind (readSInt 1 s) fun hasLimits s =>
  if hasLimits = 1 then
    rbind (readBytes 24 s) fun _ s => .ok ((), s)
  else .ok ((), s)

/-- Bone section element (util_mmd.cpp lines 228-279): names, position, parent
index, layer, 16-bit flag word, then the flag-gated conditional fields in the
source's order. -/
def readBone (enc : Nat) (boneW : Nat) (s : List Nat) : RRes Bone :=
  rbind (read_text enc s) fun nmJp s =>
  rbind (read_text enc s) fun nm s =>
  rbind (readBytes 12 s) fun pos s =>
  rbind (read_index boneW s) fun parentIdx s =>
  rbind (readSInt 4 s) fun layer s =>
  rbind (readUInt 2 s) fun flags s =>
  rbind
    (if flags.land boneFlagIndexedTail ≠ 0 then
      rbind (read_index boneW s) fun _ s => .ok ((), s)
     else rbind (readBytes 12 s) fun _ s => .ok ((), s))
    fun _ s =>
  rbind
    (if flags.land boneFlagInheritEither ≠ 0 then
      rbind (read_index boneW s) fun _ s =>
      rbind (readBytes 4 s) fun _ s => .ok ((), s)
     else .ok ((), s))
    fun _ s =>
  rbind
    (if flags.land boneFlagFixedAxis ≠ 0 then
      rbind (readBytes 12 s) fun _ s => .ok ((), s)
     else .ok ((), s))
    fun _ s =>
  rbind
    (if flags.land boneFlagLocalCoordinate ≠ 0 then
      rbind (readBytes 12 s) fun xv s =>
      rbind (readBytes 12 s) fun zv s =>
      .ok (some (xv, zv), s)
     else .ok (none, s))
    fun axes s =>
  rbind
    (if flags.land boneFlagExtParentDeform ≠ 0 then
      rbind (read_index boneW s) fun _ s => .ok ((), s)
     else .ok ((), s))
    fun _ s =>
  rbind
    (if flags.land boneFlagIK ≠ 0 then
      rbind (read_index boneW s) fun _ s =>
      rbind (readSInt 4 s) fun _ s =>
      rbind (readBytes 4 s) fun _ s =>
      rbind (readSInt 4 s) fun linkCount s =>
      rbind (readN linkCount.toNat (readIkLink boneW) s) fun _ s => .ok ((), s)
     else .ok ((), s))
    fun _ s =>
  .ok ({ nameJp := nmJp, name := nm, position := pos, parentBoneIdx := parentIdx,
         layer := layer, flags := flags, localAxes := axes }, s)

/-- Modelled from the spec: the numeric values of the `MorphType` enumeration,
which is declared in the module-interface header that is not under src/. The
values follow the PMX morph-discriminant order the spec describes in section 3
(Group, Vertex, Bone, Uv, four auxiliary UV channels, Material, Flip, Impulse),
corroborated by main.cpp's vertex-morph check (`morphType == 1`). -/
def morphTypeGroup : Nat := 0
def morphTypeVertex : Nat := 1
def morphTypeBone : Nat := 2
def morphTypeUv : Nat := 3
def morphTypeUva1 : Nat := 4
def morphTypeUva2 : Nat := 5
def morphTypeUva3 : Nat := 6
def morphTypeUva4 : Nat := 7
def morphTypeMaterial : Nat := 8
def morphTypeFlip : Nat := 9
def morphTypeImpulse : Nat := 10

/-- Modelled from the spec: the trailing byte count of each morph element
struct, i.e. `sizeof(T) - sizeof(m.index)` for the element structs
(`GroupMorph`, `VertexMorph`, `BoneMorph`, `UvMorph`, `MaterialMorph`,
`ImpulseMorph`) declared in the module-interface header that is not under
src/. The values are the packed sizes of the variant payloads the spec
describes in section 3 (Group/Flip: a blend weight; Vertex: a position offset;
Bone: translation plus rotation; Uv family: a 4-float UV offset; Material:
color/blend overrides; Impulse: flag, velocity and torque), padded to the
struct's float alignment. No claim depends on the exact numbers. -/
def morphTrailing (t : Nat) : Nat :=
  if t = morphTypeGroup ∨ t = morphTypeFlip then 4
  else if t = morphTypeVertex then 12
  else if t = morphTypeBone then 28
  else if t = morphTypeUv ∨ t = morphTypeUva1 ∨ t = morphTypeUva2 ∨ t = morphTypeUva3 ∨ t = morphTypeUva4 then 16
  else if t = morphTypeMaterial then 116
  else if t = morphTypeImpulse then 28
  else 0

/-- Index-width selector used for a morph element of discriminant `t`, exactly
as the dispatch switch of util_mmd.cpp lines 299-335 passes it to `initMorphs`:
the morph width for Group/Flip, the vertex width for Vertex and the Uv family,
the bone width for Bone, the material width for Material and the rigid-body
width for Impulse; `none` for a discriminant outside the switch. -/
def morphIndexSizeFor (w : IndexWidths) (t : Nat) : Option Nat :=
  if t = morphTypeGroup ∨ t = morphTypeFlip then some w.morphW
  else if t = morphTypeVertex then some w.vertexW
  else if t = morphTypeBone then some w.boneW
  else if t = morphTypeUv ∨ t = morphTypeUva1 ∨ t = morphTypeUva2 ∨ t = morphTypeUva3 ∨ t = morphTypeUva4 then some w.vertexW
  else if t = morphTypeMaterial then some w.materialW
  else if t = morphTypeImpulse then some w.rigidBodyW
  else none

/-- One morph element as `initMorphs` reads it (util_mmd.cpp lines 290-298):
the embedded index through `read_vertex_index` at the given selector, then the
remaining `sizeof(T) - sizeof(m.index)` bytes raw into the element. -/
def readMorphElem (idxW : Nat) (trailing : Nat) (s : List Nat) : RRes MorphElem :=
  rbind (read_vertex_index idxW s) fun i s =>
  rbind (readBytes trailing s) fun p s =>
  .ok ({ index := i, payload := p }, s)

/-- The `initMorphs` lambda (util_mmd.cpp lines 290-298): allocates
`new T[count]` (fatal for a negative count, `std::bad_array_new_length`) and
reads `count` elements. -/
def initMorphs (idxW : Nat) (trailing : Nat) (count : Int) (s : List Nat) : RRes (List MorphElem) :=
  if count < 0 then .error .badAlloc
  else readN count.toNat (readMorphElem idxW trailing) s

/-- Morph section element (util_mmd.cpp lines 283-336): names, panel type, the
raw discriminant byte, the element count, then the dispatch switch; a
discriminant outside the known set matches no case, so no elements are read and
the payload stays absent. -/
def readMorph (enc : Nat) (w : IndexWidths) (s : List Nat) : RRes Morph :=
  rbind (read_text enc s) fun nmL s =>
  rbind (read_text enc s) fun nmG s =>
  rbind (readSInt 1 s) fun panel s =>
  rbind (readUInt 1 s) fun t s =>
  rbind (readSInt 4 s) fun count s =>
  rbind
    (match morphIndexSizeFor w t with
     | some idxW =>
       rbind (initMorphs idxW (morphTrailing t) count s) fun es s => .ok (some es, s)
     | none => .ok (none, s))
    fun es s =>
  .ok ({ nameLocal := nmL, nameGlobal := nmG, panelType := panel, mtype := t,
         count := count, elems := es }, s)

/-- Vertex section (util_mmd.cpp lines 135-187): the source first calls
`vertices.reserve(vertexCount)` (line 136) — a negative signed 32-bit count
converts to a huge `size_t` exceeding `max_size()`, so `reserve` throws
`std::length_error` (fatal). A non-negative count runs the loop `count.toNat`
times. -/
def readVerticesSection (count : Int) (auxUvCount : Int) (boneW : Nat) (s : List Nat) : RRes (List VertexData) :=
  if count < 0 then .error .badAlloc
  else readN count.toNat (readVertex auxUvCount boneW) s

/-- Face section (util_mmd.cpp lines 189-194): `faces.reserve(numFaces)` at
line 190 throws `std::length_error` on a negative count, as for vertices. -/
def readFacesSection (count : Int) (vertexW : Nat) (s : List Nat) : RRes (List Nat) :=
  if count < 0 then .error .badAlloc
  else readN count.toNat (readFaceEntry vertexW) s

/-- Texture section (util_mmd.cpp lines 196-201): `textures.reserve` at line
197 throws `std::length_error` on a negative count. -/
def readTexturesSection (count : Int) (enc : Nat) (s : List Nat) : RRes (List (List Nat)) :=
  if count < 0 then .error .badAlloc
  else readN count.toNat (read_text enc) s

/-- Material section (util_mmd.cpp lines 203-224): `materials.reserve` at line
204 throws `std::length_error` on a negative count. -/
def readMaterialsSection (count : Int) (enc : Nat) (texW : Nat) (s : List Nat) : RRes (List MaterialData) :=
  if count < 0 then .error .badAlloc
  else readN count.toNat (readMaterial enc texW) s

/-- Bone section (util_mmd.cpp lines 226-279): `bones.reserve` at line 227
throws `std::length_error` on a negative count. -/
def readBonesSection (count : Int) (enc : Nat) (boneW : Nat) (s : List Nat) : RRes (List Bone) :=
  if count < 0 then .error .badAlloc
  else readN count.toNat (readBone enc boneW) s

/-- Morph section (util_mmd.cpp lines 281-337): unlike the five sections
above, the source makes no `reserve` call here, so a negative morph count
simply runs the loop zero times. -/
def readMorphsSection (count : Int) (enc : Nat) (w : IndexWidths) (s : List Nat) : RRes (List Morph) :=
  readN count.toNat (readMorph enc w) s

/-- The four signature bytes of the model format: "PMX " (exact ASCII including
the trailing space). -/
def pmxSig : List Nat := [80, 77, 88, 32]

/-- The little-endian IEEE-754 bytes of the float 2.0f, the only supported
version value; 2.0 has the unique binary32 encoding 0x40000000, so the C++
comparison `version != 2.f` holds exactly when the four raw bytes differ from
this list (NaN patterns also compare unequal, which agrees). -/
def versionTwoBytes : List Nat := [0, 0, 0, 64]

/-- Model loader `mmd::pmx::load` (util_mmd.cpp lines 110-440): signature and
version gates (absent result, not an error, on mismatch), the header globals,
the four name reads (only the second of each pair is retained), then the
vertex, face, texture, material, bone and morph sections in order (each
section decoder carries the source's `reserve(count)` failure on a negative
count; the morph section has no `reserve`). Decoding
stops after the morph section (the remaining sections are commented out in the
source). The result drops the final stream position, which the C++ caller never
observes. -/
def pmx_load (s : List Nat) : Except Err (Option ModelData) :=
  match
    rbind (readBytes 4 s) fun sig s =>
    if sig ≠ pmxSig then .ok (none, s)
    else
      rbind (readBytes 4 s) fun ver s =>
      if ver ≠ versionTwoBytes then .ok (none, s)
      else
        rbind (readUInt 1 s) fun _ s =>
        rbind (readUInt 1 s) fun enc s =>
        rbind (readSInt 1 s) fun auxUvCount s =>
        rbind (readUInt 1 s) fun vertexW s =>
        rbind (readUInt 1 s) fun textureW s =>
        rbind (readUInt 1 s) fun materialW s =>
        rbind (readUInt 1 s) fun boneW s =>
        rbind (readUInt 1 s) fun morphW s =>
        rbind (readUInt 1 s) fun rigidBodyW s =>
        rbind (read_text enc s) fun _ s =>
        rbind (read_text enc s) fun characterName s =>
        rbind (read_text enc s) fun _ s =>
        rbind (read_text enc s) fun comment s =>
        rbind (readSInt 4 s) fun vertexCount s =>
        rbind (readVerticesSection vertexCount auxUvCount boneW s) fun vertices s =>
        rbind (readSInt 4 s) fun numFaces s =>
        rbind (readFacesSection numFaces vertexW s) fun faces s =>
        rbind (readSInt 4 s) fun numTextures s =>
        rbind (readTexturesSection numTextures enc s) fun textures s =>
        rbind (readSInt 4 s) fun numMaterials s =>
        rbind (readMaterialsSection numMaterials enc textureW s) fun materials s =>
        rbind (readSInt 4 s) fun numBones s =>
        rbind (readBonesSection numBones enc boneW s) fun bones s =>
        rbind (readSInt 4 s) fun numMorphs s =>
        rbind (readMorphsSection numMorphs enc
          { vertexW := vertexW, textureW := textureW, materialW := materialW,
            boneW := boneW, morphW := morphW, rigidBodyW := rigidBodyW } s) fun morphs s =>
        .ok (some { version := [0, 0, 0, 64], characterName := characterName,
                    comment := comment, vertices := vertices, faces := faces,
                    textures := textures, materials := materials, bones := bones,
                    morphs := morphs }, s)
  with
  | .ok (r, _) => .ok r
  | .error e => .error e

/-- One fixed-layout keyframe record of a motion track: the raw record bytes
together with the embedded 32-bit frame index decoded from its fixed offset
(the `#pragma pack(1)` record structs of util_mmd.hpp lines 106-137 give the
sizes and offsets: bone keyframe 111 bytes, frame index at offset 15; morph
keyframe 23 bytes, offset 15; camera keyframe 61 bytes, offset 0; light
keyframe 28 bytes, offset 0). -/
structure VmdRecord where
  frameIndex : Nat
  bytes : List Nat
deriving DecidableEq, Repr

/-- Animation record (`AnimationData`, util_mmd.hpp lines 138-145). -/
structure AnimationData where
  modelName : List Nat
  keyframes : List VmdRecord
  morphs : List VmdRecord
  cameras : List VmdRecord
  lights : List VmdRecord
deriving DecidableEq, Repr

/-- Splits a byte run into `n` consecutive records of `recSize` bytes each,
decoding the frame index at `frameOff` in each. -/
def chunkRecords (n : Nat) (recSize : Nat) (frameOff : Nat) (bs : List Nat) : List VmdRecord :=
  match n with
  | 0 => []
  | n + 1 =>
    { frameIndex := leNat ((bs.drop frameOff).take 4), bytes := bs.take recSize }
      :: chunkRecords n recSize frameOff (bs.drop recSize)

/-- Ascending comparison on the embedded frame index, the key the source's
comparator `a.frameIndex < b.frameIndex` orders by. -/
def frameLe (a b : VmdRecord) : Prop := a.frameIndex ≤ b.frameIndex

instance : DecidableRel frameLe := fun a b => Nat.decLe a.frameIndex b.frameIndex

/-- One keyframe track, `read_keyframe_data` (util_mmd.cpp lines 460-469): a
4-byte unsigned count, then `count` fixed-layout records read verbatim in one
bulk read, then a sort ascending by the embedded frame index. The source calls
`std::sort`, whose contract fixes only the ordering and the multiset of
records; the relative order of records with equal frame indices is unspecified
by the C++ standard. `List.insertionSort` is one conforming refinement of that
contract (its stability on equal keys is an artifact of the model, not a
guarantee of the code). -/
def read_keyframe_data (recSize : Nat) (frameOff : Nat) (s : List Nat) : RRes (List VmdRecord) :=
  rbind (readUInt 4 s) fun n s =>
  rbind (readBytes (n * recSize) s) fun raw s =>
  .ok (List.insertionSort frameLe (chunkRecords n recSize frameOff raw), s)

/-- ASCII bytes of the motion signature "Vocaloid Motion Data file" (v1). -/
def vmdSigV1 : List Nat :=
  [86, 111, 99, 97, 108, 111, 105, 100, 32, 77, 111, 116, 105, 111, 110, 32,
   68, 97, 116, 97, 32, 102, 105, 108, 101]

/-- ASCII bytes of the motion signature "Vocaloid Motion Data 0002" (v2). -/
def vmdSigV2 : List Nat :=
  [86, 111, 99, 97, 108, 111, 105, 100, 32, 77, 111, 116, 105, 111, 110, 32,
   68, 97, 116, 97, 32, 48, 48, 48, 50]

/-- C-string content of a byte buffer: the bytes before the first NUL. -/
def cstrOf : List Nat → List Nat
  | [] => []
  | b :: r => if b % 256 = 0 then [] else b % 256 :: cstrOf r

/-- Modelled from the spec: the external `ustring::compare(const char*, const
char*)` helper (sharedutils, an out-of-scope collaborator) used on the 30-byte
identifier; per the spec the identifier "must exactly match one of two known
literal strings", i.e. case-sensitive C-string equality. -/
def cstrMatches (buf : List Nat) (lit : List Nat) : Bool := cstrOf buf == lit

/-- Motion loader `mmd::vmd::load` (util_mmd.cpp lines 470-494): a 30-byte
identifier selecting version 1 or 2 (absent result on no match), a model name
of 10 or 20 bytes, then the four keyframe tracks, each independently count-
prefixed, bulk-read and sorted by frame index. -/
def vmd_load (s : List Nat) : Except Err (Option AnimationData) :=
  match
    rbind (readBytes 30 s) fun ident s =>
    if cstrMatches ident vmdSigV1 then
      rbind (readBytes 10 s) fun mdlName s =>
      rbind (read_keyframe_data 111 15 s) fun keyframes s =>
      rbind (read_keyframe_data 23 15 s) fun morphs s =>
      rbind (read_keyframe_data 61 0 s) fun cameras s =>
      rbind (read_keyframe_data 28 0 s) fun lights s =>
      .ok (some { modelName := mdlName, keyframes := keyframes, morphs := morphs,
                  cameras := cameras, lights := lights }, s)
    else if cstrMatches ident vmdSigV2 then
      rbind (readBytes 20 s) fun mdlName s =>
      rbind (read_keyframe_data 111 15 s) fun keyframes s =>
      rbind (read_keyframe_data 23 15 s) fun morphs s =>
      rbind (read_keyframe_data 61 0 s) fun cameras s =>
      rbind (read_keyframe_data 28 0 s) fun lights s =>
      .ok (some { modelName := mdlName, keyframes := keyframes, morphs := morphs,
                  cameras := cameras, lights := lights }, s)
    else .ok (none, s)
  with
  | .ok (r, _) => .ok r
  | .error e => .error e

/-- Little-endian 4-byte encoding of a value below 2^32. -/
def i32enc (n : Nat) : List Nat := [n % 256, n / 256 % 256, n / 65536 % 256, n / 16777216 % 256]

/-- Maps the value component of a read result. -/
def mapRes {α β : Type} (f : α → β) (m : RRes α) : RRes β :=
  match m with
  | .ok (a, s) => .ok (f a, s)
  | .error e => .error e

theorem takeBytes_eq_some : ∀ {n : Nat} {s xs r : List Nat},
    takeBytes n s = some (xs, r) → xs = s.take n ∧ r = s.drop n := by
  intro n
  induction n with
  | zero =>
    intro s xs r h
    simp only [takeBytes, Option.some.injEq, Prod.mk.injEq] at h
    simp [← h.1, ← h.2]
  | succ n ih =>
    intro s xs r h
    cases s with
    | nil => simp [takeBytes] at h
    | cons b s' =>
      simp only [takeBytes] at h
      cases hts : takeBytes n s' with
      | none => rw [hts] at h; simp at h
      | some p =>
        obtain ⟨xs', r'⟩ := p
        rw [hts] at h
        simp only [Option.some.injEq, Prod.mk.injEq] at h
        obtain ⟨hx, hr⟩ := h
        obtain ⟨h1, h2⟩ := ih hts
        subst hx hr h1 h2
        simp

theorem takeBytes_append : ∀ (d r : List Nat), takeBytes d.length (d ++ r) = some (d, r) := by
  intro d r
  induction d with
  | nil => rfl
  | cons b d ih => simp [takeBytes, ih]

theorem readBytes_exact {n : Nat} {d : List Nat} (h : d.length = n) (r : List Nat) :
    readBytes n (d ++ r) = .ok (d, r) := by
  subst h
  unfold readBytes
  rw [takeBytes_append]

theorem takeBytes_short : ∀ {n : Nat} {s : List Nat}, s.length < n → takeBytes n s = none := by
  intro n
  induction n with
  | zero => intro s h; omega
  | succ n ih =>
    intro s h
    cases s with
    | nil => rfl
    | cons b s' =>
      simp only [takeBytes]
      rw [ih (by simpa using h)]

theorem readBytes_short {n : Nat} {s : List Nat} (h : s.length < n) :
    readBytes n s = .error .truncated := by
  unfold readBytes
  rw [takeBytes_short h]

theorem leNat_i32enc (n : Nat) (h : n < 4294967296) : leNat (i32enc n) = n := by
  simp only [i32enc, leNat]
  omega

theorem toSigned4_of_lt {n : Nat} (h : n < 2147483648) : toSigned 4 n = (n : Int) := by
  unfold toSigned
  have h2 : n % 2 ^ (8 * 4) = n := Nat.mod_eq_of_lt (by omega)
  rw [h2, if_pos (by omega)]

/-- The face-section loop without the 16-bit narrowing: the sequence of decoded
32-bit vertex indices, used to compare against what the face list stores. It
shares the section's `reserve` failure on a negative count. -/
def readRawIndices (count : Int) (w : Nat) (s : List Nat) : RRes (List Int) :=
  if count < 0 then .error .badAlloc
  else readN count.toNat (read_vertex_index w) s

theorem readN_faceEntry (w : Nat) : ∀ (k : Nat) (s : List Nat),
    readN k (readFaceEntry w) s = mapRes (List.map narrow16) (readN k (read_vertex_index w) s) := by
  intro k
  induction k with
  | zero => intro s; rfl
  | succ k ih =>
    intro s
    simp only [readN, readFaceEntry]
    cases h : read_vertex_index w s with
    | error e => simp [rbind, mapRes, h]
    | ok p =>
      obtain ⟨i, s'⟩ := p
      simp only [rbind, h, ih s']
      cases h2 : readN k (read_vertex_index w) s' with
      | error e => simp [rbind, mapRes, h2]
      | ok q => simp [rbind, mapRes, h2]

/-- C4: the vertex-index flavor of `read_index` zero-extends the 1- and 2-byte
widths and reads the 4-byte width as a signed 32-bit value, while the signed
flavor (used for texture, material, bone, morph and rigid-body indices)
sign-extends all three widths; in particular a stored byte 255 decodes to 255
in the vertex flavor and to -1 in the signed flavor, and a stored 0xFFFFFFFF
decodes to -1 in both. -/
theorem c4_index_reader_flavors :
    (∀ (b : Nat) (r : List Nat), read_vertex_index 1 (b :: r) = .ok (((b % 256 : Nat) : Int), r))
    ∧ (∀ (b0 b1 : Nat) (r : List Nat),
        read_vertex_index 2 (b0 :: b1 :: r) = .ok (((b0 % 256 + 256 * (b1 % 256) : Nat) : Int), r))
    ∧ (∀ (b0 b1 b2 b3 : Nat) (r : List Nat),
        read_vertex_index 4 (b0 :: b1 :: b2 :: b3 :: r) = .ok (toSigned 4 (leNat [b0, b1, b2, b3]), r))
    ∧ (∀ (b : Nat) (r : List Nat), read_index 1 (b :: r) = .ok (toSigned 1 (b % 256), r))
    ∧ (∀ (b0 b1 : Nat) (r : List Nat),
        read_index 2 (b0 :: b1 :: r) = .ok (toSigned 2 (leNat [b0, b1]), r))
    ∧ (∀ (b0 b1 b2 b3 : Nat) (r : List Nat),
        read_index 4 (b0 :: b1 :: b2 :: b3 :: r) = .ok (toSigned 4 (leNat [b0, b1, b2, b3]), r))
    ∧ read_vertex_index 1 [255] = .ok (255, [])
    ∧ read_index 1 [255] = .ok (-1, [])
    ∧ read_vertex_index 4 [255, 255, 255, 255] = .ok (-1, [])
    ∧ read_index 4 [255, 255, 255, 255] = .ok (-1, []) := by
  exact ⟨fun b r => rfl, fun b0 b1 r => rfl, fun b0 b1 b2 b3 r => rfl,
    fun b r => rfl, fun b0 b1 r => rfl, fun b0 b1 b2 b3 r => rfl,
    by decide, by decide, by decide, by decide⟩

/-- C8: every face entry stored by the model loader is the decoded 32-bit
vertex index narrowed to 16 bits (reduced modulo 2^16), because the face list's
element type is `uint16_t`; a 4-byte index decoding to -1 is stored as 65535
and an index of 0x1FFFF loses its high bits. -/
theorem c8_faces_narrow16 :
    (∀ (count : Int) (w : Nat) (s : List Nat),
      readFacesSection count w s = mapRes (List.map narrow16) (readRawIndices count w s))
    ∧ narrow16 (-1) = 65535
    ∧ narrow16 131071 = 65535
    ∧ readFacesSection 1 4 [255, 255, 255, 255] = .ok ([65535], []) := by
  refine ⟨?_, by decide, by decide, by decide⟩
  intro count w s
  unfold readFacesSection readRawIndices
  by_cases h : count < 0
  · rw [if_pos h, if_pos h]
    rfl
  · rw [if_neg h, if_neg h]
    exact readN_faceEntry w count.toNat s

/-- Shared prefix of the concrete test files: "PMX " signature, version 2.0,
globals length 8, UTF-8 text encoding, zero auxiliary UV channels, all six
index widths 1, and four empty (zero-length) name/comment strings. -/
def pmxFilePre : List Nat :=
  [80, 77, 88, 32, 0, 0, 0, 64, 8, 1, 0, 1, 1, 1, 1, 1, 1,
   0, 0, 0, 0, 0, 0, 0, 0, 0, 0, 0, 0, 0, 0, 0, 0]

/-- A complete model file whose six section counts all decode to -1
(bytes FF FF FF FF); the vertex count is the first one reached. -/
def negativeCountsFile : List Nat :=
  pmxFilePre ++
  [255, 255, 255, 255, 255, 255, 255, 255, 255, 255, 255, 255,
   255, 255, 255, 255, 255, 255, 255, 255, 255, 255, 255, 255]

/-- A complete model file whose first five section counts are 0 and whose
morph count decodes to -1 (bytes FF FF FF FF). -/
def negativeMorphCountFile : List Nat :=
  pmxFilePre ++
  [0, 0, 0, 0, 0, 0, 0, 0, 0, 0, 0, 0, 0, 0, 0, 0, 0, 0, 0, 0,
   255, 255, 255, 255]

/-- The model with every sequence empty, which the negative-morph-count file
decodes to. -/
def emptyModelRecord : ModelData :=
  { version := [0, 0, 0, 64], characterName := [], comment := [], vertices := [],
    faces := [], textures := [], materials := [], bones := [], morphs := [] }

/-- Counterexample to C9: on a file whose vertex count decodes to -1, the load
raises a fatal allocation failure instead of treating the section as empty and
continuing — `vertices.reserve(vertexCount)` (util_mmd.cpp line 136) receives
the negative count converted to a huge `size_t` and throws
`std::length_error`. -/
theorem c9_negative_count_cex :
    pmx_load negativeCountsFile = .error .badAlloc := by
  decide

/-- C9 as amended: only the morph section behaves as claimed — a negative
morph count runs its loop zero times, leaves the morph list empty, raises no
error, and the load completes (the source has no `reserve` call there); for
the vertex, face, texture, material and bone sections a negative count makes
the section's `reserve` call fail fatally, aborting the load.
(`Int.negSucc k` ranges over exactly the negative integers.) -/
theorem c9_negative_count_behavior :
    (∀ (k : Nat) (e : Nat) (w : IndexWidths) (s : List Nat),
      readMorphsSection (Int.negSucc k) e w s = .ok ([], s))
    ∧ pmx_load negativeMorphCountFile = .ok (some emptyModelRecord)
    ∧ (∀ (k : Nat) (aux : Int) (bw : Nat) (s : List Nat),
        readVerticesSection (Int.negSucc k) aux bw s = .error .badAlloc)
    ∧ (∀ (k : Nat) (w : Nat) (s : List Nat),
        readFacesSection (Int.negSucc k) w s = .error .badAlloc)
    ∧ (∀ (k : Nat) (e : Nat) (s : List Nat),
        readTexturesSection (Int.negSucc k) e s = .error .badAlloc)
    ∧ (∀ (k : Nat) (e tw : Nat) (s : List Nat),
        readMaterialsSection (Int.negSucc k) e tw s = .error .badAlloc)
    ∧ (∀ (k : Nat) (e bw : Nat) (s : List Nat),
        readBonesSection (Int.negSucc k) e bw s = .error .badAlloc) := by
  refine ⟨fun k e w s => rfl, by decide, ?_, ?_, ?_, ?_, ?_⟩
  · intro k aux bw s
    unfold readVerticesSection
    rw [if_pos (Int.negSucc_lt_zero k)]
  · intro k w s
    unfold readFacesSection
    rw [if_pos (Int.negSucc_lt_zero k)]
  · intro k e s
    unfold readTexturesSection
    rw [if_pos (Int.negSucc_lt_zero k)]
  · intro k e tw s
    unfold readMaterialsSection
    rw [if_pos (Int.negSucc_lt_zero k)]
  · intro k e bw s
    unfold readBonesSection
    rw [if_pos (Int.negSucc_lt_zero k)]

/-- C10: with a text-encoding byte other than 0 (UTF16) or 1 (UTF8), every
`read_text` call consumes exactly the 4-byte length prefix, none of the string
bytes, and returns the empty string without raising an error (both switch
cases fall through to the trailing `return ""`). -/
theorem c10_unknown_encoding (e : Nat) (h1 : e ≠ 1) (h0 : e ≠ 0) :
    ∀ (a b c d : Nat) (r : List Nat), read_text e (a :: b :: c :: d :: r) = .ok ([], r) := by
  intro a b c d r
  unfold read_text
  rw [show readSInt 4 (a :: b :: c :: d :: r)
        = .ok (toSigned 4 (leNat [a, b, c, d]), r) from rfl]
  simp only [rbind]
  rw [if_neg h1, if_neg h0]

/-- Witness for C10 at encoding byte 2. -/
theorem c10_unknown_encoding_witness :
    read_text 2 [5, 0, 0, 0, 1, 2, 3] = .ok ([], [1, 2, 3]) :=
  c10_unknown_encoding 2 (by decide) (by decide) 5 0 0 0 [1, 2, 3]

/-- C5: a byte source whose leading bytes are not the exact expected signature
("PMX " for the model loader, one of the two known 30-byte motion signatures
for the animation loader), or whose version float is not exactly 2.0 (unique
byte encoding 0x40000000), makes the load return an absent result (`none`),
not a failure. -/
theorem c5_mismatch_absent :
    (∀ (a b c d : Nat) (r : List Nat), [a, b, c, d] ≠ pmxSig →
      pmx_load (a :: b :: c :: d :: r) = .ok none)
    ∧ (∀ (a b c d : Nat) (r : List Nat), [a, b, c, d] ≠ versionTwoBytes →
        pmx_load (80 :: 77 :: 88 :: 32 :: a :: b :: c :: d :: r) = .ok none)
    ∧ (∀ (buf r : List Nat), buf.length = 30 → cstrMatches buf vmdSigV1 = false →
        cstrMatches buf vmdSigV2 = false → vmd_load (buf ++ r) = .ok none) := by
  refine ⟨?_, ?_, ?_⟩
  · intro a b c d r h
    unfold pmx_load
    rw [show readBytes 4 (a :: b :: c :: d :: r) = .ok ([a, b, c, d], r) from rfl]
    simp only [rbind]
    rw [if_pos h]
  · intro a b c d r h
    unfold pmx_load
    rw [show readBytes 4 (80 :: 77 :: 88 :: 32 :: a :: b :: c :: d :: r)
          = .ok (pmxSig, a :: b :: c :: d :: r) from rfl]
    simp only [rbind]
    rw [if_neg (fun hh => hh rfl)]
    rw [show readBytes 4 (a :: b :: c :: d :: r) = .ok ([a, b, c, d], r) from rfl]
    simp only [rbind]
    rw [if_pos h]
  · intro buf r hlen h1 h2
    unfold vmd_load
    rw [readBytes_exact hlen r]
    simp only [rbind, h1, h2, Bool.false_eq_true, if_false]

/-- Witness for C5: a wrong first signature byte, a wrong version byte, and a
30-byte junk motion identifier each yield an absent result. -/
theorem c5_mismatch_absent_witness :
    pmx_load [81, 77, 88, 32] = .ok none
    ∧ pmx_load [80, 77, 88, 32, 0, 0, 32, 64] = .ok none
    ∧ vmd_load (List.replicate 30 65) = .ok none :=
  ⟨c5_mismatch_absent.1 81 77 88 32 [] (by decide),
   c5_mismatch_absent.2.1 0 0 32 64 [] (by decide),
   c5_mismatch_absent.2.2 (List.replicate 30 65) [] (by decide) (by decide) (by decide)⟩

/-- A model file declaring one vertex and then ending: the header, the four
name strings and the vertex count decode, and the first vertex read hits the
end of the stream. -/
def truncatedVertexFile : List Nat := pmxFilePre ++ [1, 0, 0, 0]

/-- C6: when the model loader fails fatally it returns no record at all (the
exception propagates, the partially populated record never escapes); a stream
truncated mid-vertex-section is such a fatal truncation failure, whether the
vertex bytes are entirely missing or partially present. -/
theorem c6_fatal_no_record :
    (∀ (s : List Nat) (e : Err), pmx_load s = .error e →
      ∀ (m : Option ModelData), pmx_load s ≠ .ok m)
    ∧ pmx_load truncatedVertexFile = .error .truncated
    ∧ pmx_load (truncatedVertexFile ++ [1, 2, 3]) = .error .truncated := by
  refine ⟨?_, by decide, by decide⟩
  intro s e h m hm
  rw [h] at hm
  exact Except.noConfusion hm

/-- Witness for C6 at the truncated-vertex file. -/
theorem c6_fatal_no_record_witness :
    pmx_load truncatedVertexFile ≠ .ok none :=
  c6_fatal_no_record.1 truncatedVertexFile .truncated (by decide) none

/-- The UTF-16 branch of the text decoder as claim C7 words it, for
comparison: the byte run is interpreted as ceil(L/2) little-endian 16-bit code
units where "an odd L reads one extra trailing byte due to rounding up", i.e.
this version consumes 2*ceil(L/2) bytes from the stream. -/
def read_text_claim16 (s : List Nat) : RRes (List Nat) :=
  rbind (readSInt 4 s) fun len s =>
  if len < 0 then .error .truncated
  else
    rbind (readBytes (2 * ((len.toNat + 1) / 2)) s) fun data s =>
    match utf16to8 (toUnits data) with
    | .ok out => .ok (out, s)
    | .error e => .error e

/-- Counterexample to C7: with length prefix L = 1 and stream bytes
[0x41, 0x42], `read_text` in UTF-16 mode consumes only the single byte 0x41
(the final code unit is 0x0041, its high byte left zero-initialized, yielding
"A" with 0x42 still unread), whereas the claim's reading consumes one extra
trailing byte, forming the unit 0x4241 and leaving nothing unread — the two
disagree at this input. -/
theorem c7_oddlen_cex :
    read_text 0 [1, 0, 0, 0, 65, 66] = .ok ([65], [66])
    ∧ read_text_claim16 [1, 0, 0, 0, 65, 66] = .ok ([228, 137, 129], [])
    ∧ read_text 0 [1, 0, 0, 0, 65, 66] ≠ read_text_claim16 [1, 0, 0, 0, 65, 66] := by
  exact ⟨by decide, by decide, by decide⟩

/-- C7 as amended: in UTF-16 mode with 4-byte length prefix L, a zero L yields
the empty string; otherwise exactly L bytes are consumed (not L+1 for odd L:
the unit buffer rounds up to ceil(L/2) units but only L bytes are read, the
final odd unit keeping a zero high byte) and the ceil(L/2) little-endian code
units are transcoded to UTF-8, with an unpaired surrogate propagating a fatal
encoding error rather than being replaced. -/
theorem c7_utf16_semantics :
    (∀ r : List Nat, read_text 0 (0 :: 0 :: 0 :: 0 :: r) = .ok ([], r))
    ∧ (∀ bs : List Nat, (toUnits bs).length = (bs.length + 1) / 2)
    ∧ read_text 0 [2, 0, 0, 0, 0, 216] = .error .invalidUtf16
    ∧ (∀ (len : Nat) (data rest : List Nat), len < 2147483648 → data.length = len →
        read_text 0 (i32enc len ++ (data ++ rest)) =
          match utf16to8 (toUnits data) with
          | .ok out => .ok (out, rest)
          | .error e => .error e) := by
  refine ⟨fun r => rfl, ?_, by decide, ?_⟩
  · intro bs
    induction bs using toUnits.induct with
    | case1 => rfl
    | case2 b => simp [toUnits]
    | case3 b0 b1 rest ih => simp [toUnits, ih]; omega
  · intro len data rest hlt hlen
    unfold read_text
    rw [show readSInt 4 (i32enc len ++ (data ++ rest))
          = .ok (toSigned 4 (leNat (i32enc len)), data ++ rest) from rfl]
    simp only [rbind]
    rw [leNat_i32enc len (by omega), toSigned4_of_lt hlt]
    rw [if_neg (by decide : ¬(0 : Nat) = 1), if_pos (by trivial)]
    rw [if_neg (show ¬((len : Int) < 0) by omega)]
    rw [show ((len : Int)).toNat = len from Int.toNat_natCast len]
    rw [readBytes_exact hlen rest]

/-- Witness for C7 at L = 1, data byte 0x41, trailing byte 0x42. -/
theorem c7_utf16_semantics_witness :
    read_text 0 [1, 0, 0, 0, 65, 66] = Except.ok ([65], [66]) := by
  have h := c7_utf16_semantics.2.2.2 1 [65] [66] (by decide) rfl
  exact h

/-- The 32-bit value the vertex-flavor index reader decodes from the front of
a stream: zero-extended at widths 1 and 2, signed at width 4. -/
def vertexIndexVal (w : Nat) (s : List Nat) : Int :=
  if w = 4 then toSigned 4 (leNat (s.take 4)) else (leNat (s.take w) : Int)

theorem readUIntZ_ok {w : Nat} {s : List Nat} {v : Int} {s' : List Nat}
    (h : readUIntZ w s = .ok (v, s')) : v = (leNat (s.take w) : Int) ∧ s' = s.drop w := by
  unfold readUIntZ rbind readBytes at h
  cases hts : takeBytes w s with
  | none => rw [hts] at h; exact Except.noConfusion h
  | some p =>
    obtain ⟨xs, r⟩ := p
    rw [hts] at h
    obtain ⟨h1, h2⟩ := takeBytes_eq_some hts
    simp only [Except.ok.injEq, Prod.mk.injEq] at h
    exact ⟨by rw [← h.1, h1], by rw [← h.2, h2]⟩

theorem readSInt_ok {w : Nat} {s : List Nat} {v : Int} {s' : List Nat}
    (h : readSInt w s = .ok (v, s')) : v = toSigned w (leNat (s.take w)) ∧ s' = s.drop w := by
  unfold readSInt rbind readBytes at h
  cases hts : takeBytes w s with
  | none => rw [hts] at h; exact Except.noConfusion h
  | some p =>
    obtain ⟨xs, r⟩ := p
    rw [hts] at h
    obtain ⟨h1, h2⟩ := takeBytes_eq_some hts
    simp only [Except.ok.injEq, Prod.mk.injEq] at h
    exact ⟨by rw [← h.1, h1], by rw [← h.2, h2]⟩

theorem read_vertex_index_ok {w : Nat} {s : List Nat} {i : Int} {s' : List Nat}
    (h : read_vertex_index w s = .ok (i, s')) : i = vertexIndexVal w s := by
  unfold read_vertex_index at h
  by_cases hw1 : w = 1
  · subst hw1
    rw [if_pos rfl] at h
    rw [(readUIntZ_ok h).1]
    rfl
  by_cases hw2 : w = 2
  · subst hw2
    rw [if_neg (by decide), if_pos rfl] at h
    rw [(readUIntZ_ok h).1]
    rfl
  by_cases hw4 : w = 4
  · subst hw4
    rw [if_neg (by decide), if_neg (by decide), if_pos rfl] at h
    rw [(readSInt_ok h).1]
    rfl
  · rw [if_neg hw1, if_neg hw2, if_neg hw4] at h
    exact Except.noConfusion h

/-- A complete model file with all section counts zero except a single morph:
a Bone morph (discriminant 2) with one element whose stored 1-byte bone index
is 0xFF (all index widths in the header are 1 byte). -/
def c1CexFile : List Nat :=
  pmxFilePre ++
  [0, 0, 0, 0, 0, 0, 0, 0, 0, 0, 0, 0, 0, 0, 0, 0, 0, 0, 0, 0,
   1, 0, 0, 0,
   0, 0, 0, 0, 0, 0, 0, 0,
   0, 2, 1, 0, 0, 0, 255] ++ List.replicate 28 7

/-- The model the C1 counterexample file decodes to. -/
def c1CexModel : ModelData :=
  { version := [0, 0, 0, 64], characterName := [], comment := [], vertices := [],
    faces := [], textures := [], materials := [], bones := [],
    morphs := [{ nameLocal := [], nameGlobal := [], panelType := 0, mtype := 2,
                 count := 1,
                 elems := some [{ index := 255, payload := List.replicate 28 7 }] }] }

/-- Counterexample to C1: in a loaded model whose header declares a 1-byte
bone-index width, a Bone morph element with stored index byte 0xFF decodes to
index 255 — the element index is read with the vertex flavor (zero-extended),
not sign-extended as the claim states for the bone index domain, under which
the same byte would decode to -1. -/
theorem c1_signedness_cex :
    pmx_load c1CexFile = .ok (some c1CexModel)
    ∧ toSigned 1 255 = -1
    ∧ ((255 : Int) ≠ -1) := by
  exact ⟨by decide, by decide, by decide⟩

/-- C1 as amended: each morph element's embedded index is read at the byte
width of the index domain matching the variant (morph width for Group/Flip,
vertex width for Vertex and the Uv family, bone width for Bone, material width
for Material, rigid-body width for Impulse), but uniformly with the
vertex-index flavor regardless of the domain: zero-extended at widths 1 and 2
and signed at width 4, because `initMorphs` calls `read_vertex_index` for
every variant. -/
theorem c1_morph_index_read :
    (∀ w : IndexWidths,
      morphIndexSizeFor w morphTypeGroup = some w.morphW
      ∧ morphIndexSizeFor w morphTypeFlip = some w.morphW
      ∧ morphIndexSizeFor w morphTypeVertex = some w.vertexW
      ∧ morphIndexSizeFor w morphTypeUv = some w.vertexW
      ∧ morphIndexSizeFor w morphTypeUva1 = some w.vertexW
      ∧ morphIndexSizeFor w morphTypeUva2 = some w.vertexW
      ∧ morphIndexSizeFor w morphTypeUva3 = some w.vertexW
      ∧ morphIndexSizeFor w morphTypeUva4 = some w.vertexW
      ∧ morphIndexSizeFor w morphTypeBone = some w.boneW
      ∧ morphIndexSizeFor w morphTypeMaterial = some w.materialW
      ∧ morphIndexSizeFor w morphTypeImpulse = some w.rigidBodyW)
    ∧ (∀ (idxW trailing : Nat) (s : List Nat) (el : MorphElem) (s' : List Nat),
        readMorphElem idxW trailing s = .ok (el, s') → el.index = vertexIndexVal idxW s) := by
  refine ⟨fun w => ⟨rfl, rfl, rfl, rfl, rfl, rfl, rfl, rfl, rfl, rfl, rfl⟩, ?_⟩
  intro idxW trailing s el s' h
  unfold readMorphElem rbind at h
  cases hv : read_vertex_index idxW s with
  | error e => rw [hv] at h; exact Except.noConfusion h
  | ok p =>
    obtain ⟨i, s1⟩ := p
    rw [hv] at h
    dsimp only at h
    cases hb : readBytes trailing s1 with
    | error e => rw [hb] at h; exact Except.noConfusion h
    | ok q =>
      obtain ⟨pl, s2⟩ := q
      rw [hb] at h
      simp only [Except.ok.injEq, Prod.mk.injEq] at h
      rw [← h.1]
      exact read_vertex_index_ok hv

/-- Witness for C1's amended theorem at width 1 on the counterexample morph
element bytes. -/
theorem c1_morph_index_read_witness :
    ((255 : Int) : Int) = vertexIndexVal 1 (255 :: List.replicate 28 7) :=
  c1_morph_index_read.2 1 28 (255 :: List.replicate 28 7)
    { index := 255, payload := List.replicate 28 7 } [] (by decide)

/-- A complete model file whose header's six index-width selectors are all 0
(outside {1,2,4}) and whose single morph has discriminant byte 11 (outside the
known variant set), with every other section count zero; no index is ever read
with the invalid selectors. -/
def c3CexFile : List Nat :=
  [80, 77, 88, 32, 0, 0, 0, 64, 8, 1, 0, 0, 0, 0, 0, 0, 0,
   0, 0, 0, 0, 0, 0, 0, 0, 0, 0, 0, 0, 0, 0, 0, 0,
   0, 0, 0, 0, 0, 0, 0, 0, 0, 0, 0, 0, 0, 0, 0, 0, 0, 0, 0, 0,
   1, 0, 0, 0,
   0, 0, 0, 0, 0, 0, 0, 0,
   3, 11, 5, 0, 0, 0]

/-- The model the C3 counterexample file decodes to: the unknown-discriminant
morph is retained with no payload and no error is raised. -/
def c3CexModel : ModelData :=
  { version := [0, 0, 0, 64], characterName := [], comment := [], vertices := [],
    faces := [], textures := [], materials := [], bones := [],
    morphs := [{ nameLocal := [], nameGlobal := [], panelType := 3, mtype := 11,
                 count := 5, elems := none }] }

/-- Counterexample to C3: an input whose index-width selectors are all 0
(outside {1,2,4}) and whose morph-type byte is 11 (outside the known variant
set, as the third conjunct certifies) loads successfully with no error — the
morph-type switch has no default case, and an invalid width selector only
faults at the first index read that uses it (here there is none). -/
theorem c3_unknown_discriminant_cex :
    pmx_load c3CexFile = .ok (some c3CexModel)
    ∧ morphIndexSizeFor
        { vertexW := 0, textureW := 0, materialW := 0, boneW := 0, morphW := 0,
          rigidBodyW := 0 } 11 = none
    ∧ read_vertex_index 0 [] = .error .invalidIndexType := by
  exact ⟨by decide, by decide, by decide⟩

/-- C3 as amended: a weight-type byte outside {0,1,2,3,4} encountered while
decoding a vertex is a fatal error, and an index-width selector outside
{1,2,4} is a fatal error at the point an index is actually read with it (in
either flavor); but a morph-type byte outside the known variant set is not an
error — the morph is stored with an absent payload, no elements are read, and
decoding continues. -/
theorem c3_discriminant_behavior :
    (∀ (w : Nat) (s : List Nat), ¬(w = 1 ∨ w = 2 ∨ w = 4) →
      read_index w s = .error .invalidIndexType
      ∧ read_vertex_index w s = .error .invalidIndexType)
    ∧ (∀ (pos nor uv : List Nat) (bw wt : Nat) (r : List Nat),
        pos.length = 12 → nor.length = 12 → uv.length = 8 →
        wt % 256 ≠ 0 → wt % 256 ≠ 1 → wt % 256 ≠ 2 → wt % 256 ≠ 3 → wt % 256 ≠ 4 →
        readVertex 0 bw (pos ++ (nor ++ (uv ++ wt :: r))) = .error .invalidWeightType)
    ∧ (∀ (enc : Nat) (w : IndexWidths) (s s1 s2 nm1 nm2 : List Nat)
        (panel t a b c d : Nat) (r : List Nat),
        read_text enc s = .ok (nm1, s1) → read_text enc s1 = .ok (nm2, s2) →
        s2 = panel :: t :: a :: b :: c :: d :: r →
        morphIndexSizeFor w (t % 256) = none →
        readMorph enc w s =
          .ok ({ nameLocal := nm1, nameGlobal := nm2,
                 panelType := toSigned 1 (panel % 256), mtype := t % 256,
                 count := toSigned 4 (leNat [a, b, c, d]), elems := none }, r)) := by
  refine ⟨?_, ?_, ?_⟩
  · intro w s h
    constructor
    · unfold read_index
      rw [if_neg (fun h1 => h (Or.inl h1)), if_neg (fun h2 => h (Or.inr (Or.inl h2))),
        if_neg (fun h4 => h (Or.inr (Or.inr h4)))]
    · unfold read_vertex_index
      rw [if_neg (fun h1 => h (Or.inl h1)), if_neg (fun h2 => h (Or.inr (Or.inl h2))),
        if_neg (fun h4 => h (Or.inr (Or.inr h4)))]
  · intro pos nor uv bw wt r hpos hnor huv h0 h1 h2 h3 h4
    unfold readVertex
    rw [readBytes_exact hpos]
    simp only [rbind]
    rw [readBytes_exact hnor]
    simp only [rbind]
    rw [readBytes_exact huv]
    simp only [rbind]
    rw [if_neg (by decide : ¬((0 : Int) < 0))]
    rw [show readBytes ((0 : Int).toNat * 4) (wt :: r) = .ok ([], wt :: r) from rfl]
    simp only [rbind]
    rw [show readUInt 1 (wt :: r) = .ok (wt % 256, r) from rfl]
    simp only [rbind]
    rw [if_neg h0, if_neg h1, if_neg (fun hor => hor.elim h2 h4), if_neg h3]
  · intro enc w s s1 s2 nm1 nm2 panel t a b c d r h1 h2 hs2 hnone
    unfold readMorph
    rw [h1]
    simp only [rbind]
    rw [h2]
    simp only [rbind]
    subst hs2
    rw [show readSInt 1 (panel :: t :: a :: b :: c :: d :: r)
          = .ok (toSigned 1 (panel % 256), t :: a :: b :: c :: d :: r) from rfl]
    simp only [rbind]
    rw [show readUInt 1 (t :: a :: b :: c :: d :: r)
          = .ok (t % 256, a :: b :: c :: d :: r) from rfl]
    simp only [rbind]
    rw [show readSInt 4 (a :: b :: c :: d :: r)
          = .ok (toSigned 4 (leNat [a, b, c, d]), r) from rfl]
    simp only [rbind]
    rw [hnone]

/-- Witness for C3's amended theorem: selector 3 faults in both flavors, a
weight byte 9 faults the vertex decoder, and a morph with discriminant byte 11
decodes without error to an absent payload. -/
theorem c3_discriminant_behavior_witness :
    (read_index 3 [1, 2] = .error .invalidIndexType
      ∧ read_vertex_index 3 [1, 2] = .error .invalidIndexType)
    ∧ readVertex 0 1
        (List.replicate 12 0 ++ (List.replicate 12 0 ++ (List.replicate 8 0 ++ 9 :: [4, 5])))
        = .error .invalidWeightType
    ∧ readMorph 1
        { vertexW := 0, textureW := 0, materialW := 0, boneW := 0, morphW := 0,
          rigidBodyW := 0 }
        [0, 0, 0, 0, 0, 0, 0, 0, 3, 11, 5, 0, 0, 0, 9] =
        .ok ({ nameLocal := [], nameGlobal := [], panelType := toSigned 1 (3 % 256),
               mtype := 11 % 256, count := toSigned 4 (leNat [5, 0, 0, 0]),
               elems := none }, [9]) :=
  ⟨c3_discriminant_behavior.1 3 [1, 2] (by decide),
   c3_discriminant_behavior.2.1 (List.replicate 12 0) (List.replicate 12 0)
     (List.replicate 8 0) 1 9 [4, 5] (by decide) (by decide) (by decide)
     (by decide) (by decide) (by decide) (by decide) (by decide),
   c3_discriminant_behavior.2.2 1
     { vertexW := 0, textureW := 0, materialW := 0, boneW := 0, morphW := 0,
       rigidBodyW := 0 }
     [0, 0, 0, 0, 0, 0, 0, 0, 3, 11, 5, 0, 0, 0, 9]
     [0, 0, 0, 0, 3, 11, 5, 0, 0, 0, 9] [3, 11, 5, 0, 0, 0, 9] [] []
     3 11 5 0 0 0 [9] (by decide) (by decide) rfl (by decide)⟩

instance : IsTotal VmdRecord frameLe :=
  ⟨fun a b => Nat.le_total a.frameIndex b.frameIndex⟩

instance : IsTrans VmdRecord frameLe :=
  ⟨fun _ _ _ hab hbc => Nat.le_trans hab hbc⟩

/-- Every successfully loaded keyframe track is sorted ascending by the
embedded frame index — the part of the `std::sort` contract the C++ standard
actually guarantees (the relative order of records with equal frame indices is
unspecified and is not asserted here). -/
theorem read_keyframe_data_sorted (recSize frameOff : Nat) (s : List Nat)
    (l : List VmdRecord) (s' : List Nat)
    (h : read_keyframe_data recSize frameOff s = .ok (l, s')) : List.Sorted frameLe l := by
  unfold read_keyframe_data rbind at h
  cases hn : readUInt 4 s with
  | error e => rw [hn] at h; exact Except.noConfusion h
  | ok p =>
    obtain ⟨n, s1⟩ := p
    rw [hn] at h
    dsimp only at h
    cases hb : readBytes (n * recSize) s1 with
    | error e => rw [hb] at h; exact Except.noConfusion h
    | ok q =>
      obtain ⟨raw, s2⟩ := q
      rw [hb] at h
      simp only [Except.ok.injEq, Prod.mk.injEq] at h
      rw [← h.1]
      exact List.sorted_insertionSort frameLe _

/-- Every successfully loaded keyframe track holds exactly the multiset of
records that was read from the stream (the sort is a permutation) — the other
guaranteed part of the `std::sort` contract. -/
theorem read_keyframe_data_perm (recSize frameOff : Nat) (s : List Nat)
    (l : List VmdRecord) (s' : List Nat)
    (h : read_keyframe_data recSize frameOff s = .ok (l, s')) :
    ∃ (n : Nat) (raw : List Nat),
      readUInt 4 s = .ok (n, s.drop 4)
      ∧ l.Perm (chunkRecords n recSize frameOff raw)
      ∧ readBytes (n * recSize) (s.drop 4) = .ok (raw, s') := by
  unfold read_keyframe_data rbind at h
  cases hn : readUInt 4 s with
  | error e => rw [hn] at h; exact Except.noConfusion h
  | ok p =>
    obtain ⟨n, s1⟩ := p
    rw [hn] at h
    dsimp only at h
    cases hb : readBytes (n * recSize) s1 with
    | error e => rw [hb] at h; exact Except.noConfusion h
    | ok q =>
      obtain ⟨raw, s2⟩ := q
      rw [hb] at h
      simp only [Except.ok.injEq, Prod.mk.injEq] at h
      have hz : readUIntZ 4 s = .ok ((n : Int), s1) := by
        unfold readUIntZ rbind readBytes
        unfold readUInt rbind readBytes at hn
        cases hts : takeBytes 4 s with
        | none => rw [hts] at hn; exact Except.noConfusion hn
        | some pp =>
          obtain ⟨xs, r⟩ := pp
          rw [hts] at hn
          simp only [Except.ok.injEq, Prod.mk.injEq] at hn
          simp [hn.1, hn.2]
      have hs1 : s1 = s.drop 4 := (readUIntZ_ok hz).2
      subst hs1
      refine ⟨n, raw, rfl, ?_, ?_⟩
      · rw [← h.1]
        exact List.perm_insertionSort frameLe _
      · rw [hb, h.2]

end MmdUtil
